import Mathlib

/-!
Shallow embedding of the `gcmshadow/verify` repository:
  * `src/python/lsst/validate/drp/validate.py` (loadAndMatchData, analyzeData, run)
  * `src/python/lsst/verify/tasks/ppdbMetricTask.py` (ConfigPpdbLoader, PpdbMetricTask)

Floating-point magnitudes are embedded as rationals together with an explicit
finiteness flag (np.isfinite).  The numeric library's square root (used by
np.std and by the external positionRms) is an abstract function parameter, and
the external catalog matcher (afw.table.MultiMatch + GroupView.build) is an
abstract parameter as well: no claim depends on their numeric values, only on
how the pipeline routes data through them.
-/

namespace Verify

/-- One measured source in one visit/CCD, after the schema-mapper step of
`loadAndMatchData` added the calibrated `base_PsfFlux_mag` and
`base_PsfFlux_magerr` columns.  Field names follow the schema keys looked up
in `analyzeData`.  `base_PsfFlux_mag_isFinite` records `np.isfinite` of the
magnitude (a non-finite float is carried as an arbitrary rational plus a
`false` flag). -/
structure Detection where
  coord_ra : ℚ
  coord_dec : ℚ
  base_PsfFlux_mag : ℚ
  base_PsfFlux_mag_isFinite : Bool
  base_PsfFlux_magerr : ℚ
  base_ClassificationExtendedness_value : ℚ
  base_PixelFlags_flag_saturated : Bool
  base_PixelFlags_flag_cr : Bool
  base_PixelFlags_flag_bad : Bool
  base_PixelFlags_flag_edge : Bool
deriving Repr, DecidableEq

/-- A matched group: the member detections of one object id of the GroupView. -/
abbrev Group := List Detection

/-- Embedding of `afw.table.GroupView`: the mapping object id → member catalog, embedded as
the list of groups in object-id order. -/
abbrev GroupView := List Group

/-- Embedding of `GroupView.where(predicate)`: the sub-view of groups passing the
predicate (`where` is a Lean keyword, hence the prime). -/
def GroupView.where' (gv : GroupView) (p : Group → Bool) : GroupView :=
  gv.filter p

/-- Embedding of `GroupView.aggregate(function, field=key)`: apply `function` to the
`field` column of each group. -/
def GroupView.aggregateField (gv : GroupView) (f : List ℚ → ℚ)
    (field : Detection → ℚ) : List ℚ :=
  gv.map (fun cat => f (cat.map field))

/-- Embedding of `GroupView.aggregate(function)` with the default `field=None`: apply
`function` to each whole group. -/
def GroupView.aggregate (gv : GroupView) (f : Group → ℚ) : List ℚ :=
  gv.map f

/-- Embedding of `np.mean` of a column (total over the empty column is junk `0`; the
pipeline only applies it to groups of ≥ 2 members). -/
def meanQ (l : List ℚ) : ℚ :=
  l.sum / l.length

/-- Embedding of `np.max` of a column (junk `0` on the empty column, which the pipeline
never passes). -/
def maxQ : List ℚ → ℚ
  | [] => 0
  | x :: xs => xs.foldl max x

/-- Embedding of `np.std` (population standard deviation, ddof=0): square root of the mean
squared deviation, with the library square root abstract. -/
def stdQ (sqrt : ℚ → ℚ) (l : List ℚ) : ℚ :=
  sqrt (meanQ (l.map (fun x => (x - meanQ l) ^ 2)))

/-- Embedding of `np.median`: middle element of the sorted column, or the average of the
two middle elements for an even length. -/
def medianQ (l : List ℚ) : ℚ :=
  let s := l.insertionSort (fun a b => a ≤ b)
  let n := l.length
  if n = 0 then 0
  else if n % 2 = 1 then s.getD (n / 2) 0
  else (s.getD (n / 2 - 1) 0 + s.getD (n / 2) 0) / 2

/-! ### analyzeData (validate.py lines 114-179) -/

/-- The four disqualifying pixel-flag columns of `analyzeData`
(`base_PixelFlags_flag_%s` for saturated, cr, bad, edge). -/
def flagKeys : List (Detection → Bool) :=
  [fun d => d.base_PixelFlags_flag_saturated,
   fun d => d.base_PixelFlags_flag_cr,
   fun d => d.base_PixelFlags_flag_bad,
   fun d => d.base_PixelFlags_flag_edge]

/-- The constant `nMatchesRequired = 2`. -/
def nMatchesRequired : ℕ := 2

/-- The predicate `goodFilter` from `analyzeData`: at least `nMatchesRequired` members, no
member with any disqualifying flag, every member's PSF magnitude finite. -/
def goodFilter (cat : Group) : Bool :=
  if cat.length < nMatchesRequired then false
  else if flagKeys.any (fun flagKey => cat.any flagKey) then false
  else if !(cat.all (fun d => d.base_PsfFlux_mag_isFinite)) then false
  else true

/-- The constant `safeMaxExtended = 1.0`. -/
def safeMaxExtended : ℚ := 1

/-- The predicate `safeFilter` from `analyzeData`: mean PSF magnitude at most
`good_mag_limit` (= `safeMaxMag`) and maximum extendedness strictly below
`safeMaxExtended`. -/
def safeFilter (good_mag_limit : ℚ) (cat : Group) : Bool :=
  let psfMag := meanQ (cat.map (fun d => d.base_PsfFlux_mag))
  let extended := maxQ (cat.map (fun d => d.base_ClassificationExtendedness_value))
  decide (psfMag ≤ good_mag_limit) && decide (extended < safeMaxExtended)

/-- The `pipeBase.Struct` returned by `analyzeData` (`match` is a Lean
keyword, embedded as `matchCount`). -/
structure InfoStruct where
  mag : List ℚ
  magerr : List ℚ
  magrms : List ℚ
  dist : List ℚ
  matchCount : ℕ
deriving Repr, DecidableEq

/-- Default of `analyzeData`'s `good_mag_limit` keyword argument. -/
def analyzeData_default_good_mag_limit : ℚ := 19.5

/-- Embedding of `analyzeData(allMatches, good_mag_limit)`: filter to good matches, filter
further to safe matches, aggregate mean / std / median / positionRms over the
good matches, return the summary struct and the safe matches.
`sqrt` abstracts the numeric library square root inside `np.std`;
`positionRms` abstracts `check.positionRms` (imported by validate.py from a
module outside this tree). -/
def analyzeData (sqrt : ℚ → ℚ) (positionRms : Group → ℚ)
    (allMatches : GroupView) (good_mag_limit : ℚ) : InfoStruct × GroupView :=
  let goodMatches := allMatches.where' goodFilter
  let safeMatches := goodMatches.where' (safeFilter good_mag_limit)
  let goodPsfMag := goodMatches.aggregateField meanQ
    (fun d => d.base_PsfFlux_mag)
  let goodPsfMagRms := goodMatches.aggregateField (stdQ sqrt)
    (fun d => d.base_PsfFlux_mag)
  let goodPsfMagErr := goodMatches.aggregateField medianQ
    (fun d => d.base_PsfFlux_magerr)
  let dist := goodMatches.aggregate positionRms
  (⟨goodPsfMag, goodPsfMagErr, goodPsfMagRms, dist, dist.length⟩, safeMatches)

/-! ### loadAndMatchData (validate.py lines 41-111)

The butler data store, the per-visit data ids, the calibration metadata and
the flux-to-magnitude transform of `afwImage.Calib` are external
collaborators; they appear as type and function parameters.  Any exception a
butler fetch raises is an `Except.error`; the embedding performs no catch, so
errors propagate exactly as Python exceptions do. -/

/-- Result of `calib.getMagnitude(flux, fluxSigma)` on one record: magnitude
(with its finiteness, since a negative flux yields a non-finite magnitude
once `setThrowOnNegativeFlux(False)` is set) and magnitude error. -/
structure MagResult where
  mag : ℚ
  magIsFinite : Bool
  magerr : ℚ
deriving Repr, DecidableEq

/-- The `afwImage.Calib` object built from the `calexp_md` metadata; the constructor
leaves `throwOnNegativeFlux` on, `setThrowOnNegativeFlux(False)` clears it. -/
structure Calib (Md : Type) where
  metadata : Md
  throwOnNegativeFlux : Bool
deriving Repr, DecidableEq

/-- A raw record of the `src` dataset: the minimal-schema fields copied by the
SchemaMapper, before the magnitude columns are filled in. -/
structure SrcRecord where
  coord_ra : ℚ
  coord_dec : ℚ
  base_PsfFlux_flux : ℚ
  base_PsfFlux_fluxSigma : ℚ
  base_ClassificationExtendedness_value : ℚ
  base_PixelFlags_flag_saturated : Bool
  base_PixelFlags_flag_cr : Bool
  base_PixelFlags_flag_bad : Bool
  base_PixelFlags_flag_edge : Bool
deriving Repr, DecidableEq

/-- The schema object fetched as `src_schema`; its content is opaque to the
pipeline (it only seeds the SchemaMapper). -/
structure Schema where
  tag : ℕ
deriving Repr, DecidableEq

/-- The `dafPersist.Butler` over one repository: each `butler.get` either
returns the dataset or raises (`Except.error`). -/
structure Butler (ε Md DataId : Type) where
  getSrcSchema : Except ε Schema
  getCalexpMd : DataId → Except ε Md
  getSrc : DataId → Except ε (List SrcRecord)

/-- Errors escaping `loadAndMatchData`: the IndexError of `visitDataIds[0]`
on an empty list, or a butler exception carried unmodified. -/
inductive PipeError (ε : Type) where
  | indexError : PipeError ε
  | butlerError (e : ε) : PipeError ε
deriving Repr, DecidableEq

/-- Lift a butler fetch into the pipeline error type (no handler in the
source: the exception itself is preserved). -/
def liftButler {ε α : Type} : Except ε α → Except (PipeError ε) α
  | .ok a => .ok a
  | .error e => .error (.butlerError e)

/-- Sequential effectful map: the Python `for vId in visitDataIds` loop,
which stops at the first raised exception. -/
def exceptMapList {α β ε : Type} (f : α → Except ε β) : List α → Except ε (List β)
  | [] => .ok []
  | a :: l =>
    match f a with
    | .error e => .error e
    | .ok b =>
      match exceptMapList f l with
      | .error e => .error e
      | .ok bs => .ok (b :: bs)

/-- The external collaborators of `loadAndMatchData`:
`getCcdKeyName` (from `.util`), the `Calib.getMagnitude` transform of
`afwImage`, and the `MultiMatch(…, radius).add*/finish` + `GroupView.build`
pipeline of `afw.table`, which turns the tagged per-visit catalogs into the
grouped view. -/
structure Externals (ε Md DataId : Type) where
  getCcdKeyName : DataId → String
  getMagnitude : Calib Md → ℚ → ℚ → MagResult
  multiMatch : ℚ → List (List Detection × DataId) → GroupView

/-- One iteration of the visit loop: fetch `calexp_md`, build the calib with
`setThrowOnNegativeFlux(False)`, fetch `src`, extend the temporary catalog
through the mapper and fill the magnitude columns from
`calib.getMagnitude(flux, fluxSigma)`; the tagged catalog is handed to the
matcher. -/
def loadVisit {ε Md DataId : Type} (E : Externals ε Md DataId)
    (butler : Butler ε Md DataId) (vId : DataId) :
    Except (PipeError ε) (List Detection × DataId) :=
  match liftButler (butler.getCalexpMd vId) with
  | .error e => .error e
  | .ok md =>
    let calib : Calib Md := { metadata := md, throwOnNegativeFlux := false }
    match liftButler (butler.getSrc vId) with
    | .error e => .error e
    | .ok oldSrc =>
      let tmpCat := oldSrc.map (fun s =>
        let r := E.getMagnitude calib s.base_PsfFlux_flux s.base_PsfFlux_fluxSigma
        { coord_ra := s.coord_ra
          coord_dec := s.coord_dec
          base_PsfFlux_mag := r.mag
          base_PsfFlux_mag_isFinite := r.magIsFinite
          base_PsfFlux_magerr := r.magerr
          base_ClassificationExtendedness_value :=
            s.base_ClassificationExtendedness_value
          base_PixelFlags_flag_saturated := s.base_PixelFlags_flag_saturated
          base_PixelFlags_flag_cr := s.base_PixelFlags_flag_cr
          base_PixelFlags_flag_bad := s.base_PixelFlags_flag_bad
          base_PixelFlags_flag_edge := s.base_PixelFlags_flag_edge
          : Detection })
      .ok (tmpCat, vId)

/-- Default of `loadAndMatchData`'s `matchRadius` keyword argument:
`afwGeom.Angle(1, afwGeom.arcseconds)`, in arcseconds. -/
def loadAndMatchData_default_matchRadius : ℚ := 1

/-- Embedding of `loadAndMatchData(repo, visitDataIds, matchRadius)`: read
`visitDataIds[0]` for the CCD key name (IndexError on an empty list), fetch
the `src` schema, load and calibrate each visit in order, then match all
catalogs and return the grouped view.  No exception is caught. -/
def loadAndMatchData {ε Md DataId : Type} (E : Externals ε Md DataId)
    (butler : Butler ε Md DataId) (visitDataIds : List DataId)
    (matchRadius : ℚ) : Except (PipeError ε) GroupView :=
  match visitDataIds with
  | [] => .error .indexError
  | v0 :: _ =>
    let _ccdKeyName := E.getCcdKeyName v0
    match liftButler butler.getSrcSchema with
    | .error e => .error e
    | .ok _schema =>
      match exceptMapList (loadVisit E butler) visitDataIds with
      | .error e => .error e
      | .ok catalogs => .ok (E.multiMatch matchRadius catalogs)

/-! ### run (validate.py lines 183-238)

`checkAstrometry`, `checkPhotometry`, `plotAstrometry` and `plotPhotometry`
are external (modules `.check` / `.plot`); the embedding records the argument
tuples `run` hands them. -/

/-- Arguments `run` passes to `checkAstrometry` / `checkPhotometry`. -/
structure CheckCall where
  mag : List ℚ
  mmagrms : List ℚ
  dist : List ℚ
  matchCount : ℕ
  good_mag_limit : ℚ
  medianRef : ℚ
  matchRef : ℕ
deriving Repr, DecidableEq

/-- Arguments `run` passes to `plotAstrometry` / `plotPhotometry`. -/
structure PlotCall where
  mag : List ℚ
  mmagerr : List ℚ
  mmagrms : List ℚ
  dist : List ℚ
  matchCount : ℕ
  good_mag_limit : ℚ
deriving Repr, DecidableEq

/-- The downstream calls issued by `run`, plus the safe matches that feed the
PA1/AM1/AM2 metrics. -/
structure RunReport where
  checkAstrometryCall : CheckCall
  checkPhotometryCall : CheckCall
  plotAstrometryCall : PlotCall
  plotPhotometryCall : PlotCall
  safeMatches : GroupView
deriving Repr, DecidableEq

/-- Default of `run`'s `good_mag_limit` keyword argument. -/
def run_default_good_mag_limit : ℚ := 21

/-- Default of `run`'s `medianAstromscatterRef` keyword argument (mas). -/
def run_default_medianAstromscatterRef : ℚ := 25

/-- Default of `run`'s `medianPhotoscatterRef` keyword argument (mmag). -/
def run_default_medianPhotoscatterRef : ℚ := 25

/-- Default of `run`'s `matchRef` keyword argument. -/
def run_default_matchRef : ℕ := 500

/-- Embedding of `run(repo, visitDataIds, good_mag_limit, medianAstromscatterRef,
medianPhotoscatterRef, matchRef)`: load and match (with the default match
radius), analyze with the caller's `good_mag_limit`, convert `magerr` and
`magrms` to millimagnitudes, and issue the check and plot calls. -/
def run {ε Md DataId : Type} (E : Externals ε Md DataId) (sqrt : ℚ → ℚ)
    (positionRms : Group → ℚ) (butler : Butler ε Md DataId)
    (visitDataIds : List DataId) (good_mag_limit : ℚ)
    (medianAstromscatterRef : ℚ) (medianPhotoscatterRef : ℚ)
    (matchRef : ℕ) : Except (PipeError ε) RunReport :=
  match loadAndMatchData E butler visitDataIds
      loadAndMatchData_default_matchRadius with
  | .error e => .error e
  | .ok allMatches =>
    let res := analyzeData sqrt positionRms allMatches good_mag_limit
    let magavg := res.1.mag
    let magerr := res.1.magerr
    let magrms := res.1.magrms
    let dist := res.1.dist
    let matchCount := res.1.matchCount
    let safeMatches := res.2
    let mmagerr := magerr.map (fun x => 1000 * x)
    let mmagrms := magrms.map (fun x => 1000 * x)
    .ok
      { checkAstrometryCall :=
          ⟨magavg, mmagrms, dist, matchCount, good_mag_limit,
            medianAstromscatterRef, matchRef⟩
        checkPhotometryCall :=
          ⟨magavg, mmagrms, dist, matchCount, good_mag_limit,
            medianPhotoscatterRef, matchRef⟩
        plotAstrometryCall :=
          ⟨magavg, mmagerr, mmagrms, dist, matchCount, good_mag_limit⟩
        plotPhotometryCall :=
          ⟨magavg, mmagerr, mmagrms, dist, matchCount, good_mag_limit⟩
        safeMatches := safeMatches }

/-- Variant of `run` with every keyword argument left at its default. -/
def runWithDefaults {ε Md DataId : Type} (E : Externals ε Md DataId)
    (sqrt : ℚ → ℚ) (positionRms : Group → ℚ) (butler : Butler ε Md DataId)
    (visitDataIds : List DataId) : Except (PipeError ε) RunReport :=
  run E sqrt positionRms butler visitDataIds run_default_good_mag_limit
    run_default_medianAstromscatterRef run_default_medianPhotoscatterRef
    run_default_matchRef

/-! ### ppdbMetricTask.py: ConfigPpdbLoader and PpdbMetricTask

The `lsst.pex.config` trees walked by `ConfigPpdbLoader._getPpdb` are
embedded as an inductive: a config is either a `PpdbConfig` or a plain
config holding a list of field values, each field value being one of the
`isinstance` cases of the dispatch loop.  `Ppdb(config)` /
`configurable.apply()` both construct a database from a `PpdbConfig`. -/

/-- A `lsst.dax.ppdb.PpdbConfig`; its payload is opaque to the walker. -/
structure PpdbCfg where
  payload : ℕ
deriving Repr, DecidableEq

/-- A `lsst.dax.ppdb.Ppdb` database, holding the config it was built from. -/
structure Ppdb where
  config : PpdbCfg
deriving Repr, DecidableEq

mutual
/-- A `lsst.pex.config.Config` value: either a `PpdbConfig` (the isinstance
test of `_getPpdb`) or a plain config whose `values()` is a field list. -/
inductive Cfg : Type where
  | ppdbCfg (c : PpdbCfg) : Cfg
  | plain (fields : List CfgField) : Cfg

/-- One value of `config.values()`, split by the `isinstance` dispatch of
`_getPpdb`: a `ConfigurableInstance` (absent, of `ConfigClass == PpdbConfig`,
or of another class with a config `value`), a `ConfigChoiceField` instance
dict (single-active, where reading `names` raises `FieldValidationError`, or
multi-active), a `ConfigDictField` dict, a nested `Config`, or a scalar field
matching no branch. -/
inductive CfgField : Type where
  | configurableNone : CfgField
  | configurablePpdbClass (value : PpdbCfg) : CfgField
  | configurableOtherClass (value : Cfg) : CfgField
  | choiceSingle (active : Option Cfg) : CfgField
  | choiceMulti (active : List Cfg) : CfgField
  | dictField (vals : List Cfg) : CfgField
  | nestedConfig (c : Cfg) : CfgField
  | scalar : CfgField
end

mutual
/-- Embedding of `ConfigPpdbLoader._getPpdb` on a non-None config: a `PpdbConfig` gives
`Ppdb(config)`; otherwise walk `config.values()` and return the first hit. -/
def getPpdb : Cfg → Option Ppdb
  | .ppdbCfg c => some ⟨c⟩
  | .plain fields => getPpdbFields fields

/-- The `for field in config.values()` loop of `_getPpdb`: each branch ends
in `if result: return result`, i.e. the first `some` wins. -/
def getPpdbFields : List CfgField → Option Ppdb
  | [] => none
  | field :: rest =>
    match getPpdbField field with
    | some result => some result
    | none => getPpdbFields rest

/-- One branch of the dispatch: `_getPpdbFromConfigurableField` for
configurables (`apply()` when `ConfigClass == PpdbConfig`, else recurse on
`value`), `_getPpdb(field.active)` / `_getPpdbFromConfigIterable(field.active)`
for choice fields, `_getPpdbFromConfigIterable(field.values())` for dict
fields, `_getPpdb(field)` for nested configs, nothing for scalars. -/
def getPpdbField : CfgField → Option Ppdb
  | .configurableNone => none
  | .configurablePpdbClass value => some ⟨value⟩
  | .configurableOtherClass value => getPpdb value
  | .choiceSingle none => none
  | .choiceSingle (some active) => getPpdb active
  | .choiceMulti active => getPpdbIterable active
  | .dictField vals => getPpdbIterable vals
  | .nestedConfig c => getPpdb c
  | .scalar => none

/-- Embedding of `_getPpdbFromConfigIterable`: first hit over the iterable (an empty
iterable is falsy and yields None). -/
def getPpdbIterable : List Cfg → Option Ppdb
  | [] => none
  | c :: rest =>
    match getPpdb c with
    | some result => some result
    | none => getPpdbIterable rest
end

/-- Embedding of `_getPpdb` including its leading `if config is None: return None`. -/
def ConfigPpdbLoader_getPpdb : Option Cfg → Option Ppdb
  | none => none
  | some c => getPpdb c

/-- Embedding of `ConfigPpdbLoader.run(config).ppdb`. -/
def ConfigPpdbLoader_run (config : Option Cfg) : Option Ppdb :=
  ConfigPpdbLoader_getPpdb config

mutual
/-- Whether a config tree holds a `PpdbConfig` anywhere the walker could
reach one (as a config node or as a configurable of class `PpdbConfig`). -/
def cfgHasPpdb : Cfg → Bool
  | .ppdbCfg _ => true
  | .plain fields => fieldsHavePpdb fields

/-- Extension of `cfgHasPpdb` over a field list. -/
def fieldsHavePpdb : List CfgField → Bool
  | [] => false
  | f :: rest => fieldHasPpdb f || fieldsHavePpdb rest

/-- Extension of `cfgHasPpdb` over one field value. -/
def fieldHasPpdb : CfgField → Bool
  | .configurableNone => false
  | .configurablePpdbClass _ => true
  | .configurableOtherClass value => cfgHasPpdb value
  | .choiceSingle none => false
  | .choiceSingle (some active) => cfgHasPpdb active
  | .choiceMulti active => cfgListHasPpdb active
  | .dictField vals => cfgListHasPpdb vals
  | .nestedConfig c => cfgHasPpdb c
  | .scalar => false

/-- Extension of `cfgHasPpdb` over a config list. -/
def cfgListHasPpdb : List Cfg → Bool
  | [] => false
  | c :: rest => cfgHasPpdb c || cfgListHasPpdb rest
end

/-- The `dbInfo` element of `inputData`: either the dataset itself or (for
`MetricsControllerTask` compatibility) a single-element list wrapping it; the
dataset is a science-task config, possibly None. -/
inductive DbInfoInput where
  | scalar (cfg : Option Cfg) : DbInfoInput
  | wrapped (l : List (Option Cfg)) : DbInfoInput

/-- The only exception `adaptArgsAndRun` itself can raise while unwrapping
`dbInfo`: `dbInfo[0]` on an empty list is an IndexError, which the
`except TypeError` handler does not catch. -/
inductive AdaptError where
  | indexError : AdaptError
deriving Repr, DecidableEq

/-- The statement `dbInfo = dbInfo[0]` under `try … except TypeError: pass`: a
non-subscriptable dataset is kept as is, a list yields its head or an
uncaught IndexError. -/
def unwrapDbInfo : DbInfoInput → Except AdaptError (Option Cfg)
  | .scalar cfg => .ok cfg
  | .wrapped [] => .error .indexError
  | .wrapped (cfg :: _) => .ok cfg

/-- Calls `adaptArgsAndRun` makes on the abstract task hooks, in order:
`self.makeMeasurement(db, dataId)` and
`self.addStandardMetadata(measurement, dataId)`. -/
inductive AdaptEvent (Meas DataId : Type) where
  | makeMeasurementCall (db : Ppdb) (dataId : DataId) : AdaptEvent Meas DataId
  | addStandardMetadataCall (m : Meas) (dataId : DataId) : AdaptEvent Meas DataId

/-- Embedding of `PpdbMetricTask.adaptArgsAndRun(inputData, inputDataIds, outputDataId)`:
unwrap `dbInfo`, load the database through `ConfigPpdbLoader.run`, call
`makeMeasurement` only on a non-None database, call `addStandardMetadata`
only on a non-None measurement, and return `Struct(measurement=…)`.
`makeMeasurement` is the abstract subclass hook (parameter `mm`); the second
component logs the hook calls in execution order. -/
def adaptArgsAndRun {Meas DataId : Type} (mm : Ppdb → DataId → Option Meas)
    (inputData_dbInfo : DbInfoInput) (outputDataId_measurement : DataId) :
    Except AdaptError (Option Meas × List (AdaptEvent Meas DataId)) :=
  let dataId := outputDataId_measurement
  match unwrapDbInfo inputData_dbInfo with
  | .error e => .error e
  | .ok dbInfo =>
    let db := ConfigPpdbLoader_run dbInfo
    let stage1 : Option Meas × List (AdaptEvent Meas DataId) :=
      match db with
      | some d => (mm d dataId, [.makeMeasurementCall d dataId])
      | none => (none, [])
    let events :=
      match stage1.1 with
      | some m => stage1.2 ++ [.addStandardMetadataCall m dataId]
      | none => stage1.2
    .ok (stage1.1, events)

/-! ### Statement vocabulary and concrete fixtures -/

/-- A detection carries none of the four disqualifying pixel flags. -/
def flagClean (d : Detection) : Prop :=
  d.base_PixelFlags_flag_saturated = false ∧
  d.base_PixelFlags_flag_cr = false ∧
  d.base_PixelFlags_flag_bad = false ∧
  d.base_PixelFlags_flag_edge = false

instance (d : Detection) : Decidable (flagClean d) := by
  unfold flagClean; infer_instance

/-- Trivial stand-in for the library square root, for concrete evaluation. -/
def sqrtTriv : ℚ → ℚ := fun _ => 0

/-- Trivial stand-in for `positionRms`, for concrete evaluation. -/
def posRmsTriv : Group → ℚ := fun _ => 0

/-- Trivial external collaborators over unit types, for concrete evaluation:
the matcher returns the empty grouped view. -/
def externalsTriv : Externals Unit Unit Unit :=
  { getCcdKeyName := fun _ => "ccd"
    getMagnitude := fun _ _ _ => ⟨0, true, 0⟩
    multiMatch := fun _ _ => [] }

/-- A butler whose every fetch succeeds with empty data. -/
def butlerOk : Butler Unit Unit Unit :=
  { getSrcSchema := .ok ⟨0⟩
    getCalexpMd := fun _ => .ok ()
    getSrc := fun _ => .ok [] }

/-- External collaborators over numeric visit ids, for concrete evaluation. -/
def externalsNat : Externals ℕ Unit ℕ :=
  { getCcdKeyName := fun _ => "ccd"
    getMagnitude := fun _ _ _ => ⟨0, true, 0⟩
    multiMatch := fun _ _ => [] }

/-- Trivial `makeMeasurement` hook over numeric measurements and data ids,
for concrete evaluation. -/
def mmTriv : Ppdb → ℕ → Option ℕ := fun _ _ => none

/-- A butler that raises error `7` when fetching the `src` catalog of visit
`1` and succeeds with empty data everywhere else. -/
def butlerFailSrc : Butler ℕ Unit ℕ :=
  { getSrcSchema := .ok ⟨0⟩
    getCalexpMd := fun _ => .ok ()
    getSrc := fun v => if v = 1 then .error 7 else .ok [] }

/-! ## Theorems -/

/-- Unfold the if-chain of `goodFilter` into its three boolean conditions. -/
theorem goodFilter_eq_true_iff (cat : Group) :
    goodFilter cat = true ↔
      ¬(cat.length < nMatchesRequired) ∧
      flagKeys.any (fun flagKey => cat.any flagKey) = false ∧
      cat.all (fun d => d.base_PsfFlux_mag_isFinite) = true := by
  unfold goodFilter
  split
  · next h => simp [h]
  · next h =>
    split
    · next h2 => simp [h, h2]
    · next h2 =>
      split
      · next h3 => simp_all
      · next h3 => simp_all

/-- The flag loop of `goodFilter` finds no flag iff every member is clean. -/
theorem flagKeys_any_eq_false_iff (cat : Group) :
    flagKeys.any (fun flagKey => cat.any flagKey) = false ↔
      ∀ d ∈ cat, flagClean d := by
  unfold flagKeys flagClean
  simp only [List.any_cons, List.any_nil, Bool.or_false, Bool.or_eq_false_iff,
    List.any_eq_false, Bool.not_eq_true]
  constructor
  · rintro ⟨h1, h2, h3, h4⟩ d hd
    exact ⟨h1 d hd, h2 d hd, h3 d hd, h4 d hd⟩
  · intro h
    exact ⟨fun d hd => (h d hd).1, fun d hd => (h d hd).2.1,
      fun d hd => (h d hd).2.2.1, fun d hd => (h d hd).2.2.2⟩

/-- C1: the good-quality filter passes a group iff it has at least 2 members,
no member carries any of the four disqualifying pixel flags (saturated, cr,
bad, edge), and every member's PSF magnitude is finite; in particular groups
with fewer than 2 members, or with any disqualifying flag on any member, are
excluded. -/
theorem c1_goodFilter_iff (cat : Group) :
    goodFilter cat = true ↔
      (2 ≤ cat.length ∧ (∀ d ∈ cat, flagClean d) ∧
        ∀ d ∈ cat, d.base_PsfFlux_mag_isFinite = true) := by
  rw [goodFilter_eq_true_iff, flagKeys_any_eq_false_iff]
  simp only [List.all_eq_true, nMatchesRequired, not_lt]

/-- C2: a group is in `safeMatches` iff it passed the good-quality filter
and satisfies the safe predicate, and the safe predicate holds iff the mean
member PSF magnitude is at most `good_mag_limit` and the maximum member
extendedness is strictly below `1.0`. -/
theorem c2_safeMatches_iff (sqrt : ℚ → ℚ) (positionRms : Group → ℚ)
    (allMatches : GroupView) (good_mag_limit : ℚ) (cat : Group) :
    (safeFilter good_mag_limit cat = true ↔
      meanQ (cat.map (fun d => d.base_PsfFlux_mag)) ≤ good_mag_limit ∧
      maxQ (cat.map (fun d => d.base_ClassificationExtendedness_value)) < 1) ∧
    (cat ∈ (analyzeData sqrt positionRms allMatches good_mag_limit).2 ↔
      cat ∈ allMatches.where' goodFilter ∧
      meanQ (cat.map (fun d => d.base_PsfFlux_mag)) ≤ good_mag_limit ∧
      maxQ (cat.map (fun d => d.base_ClassificationExtendedness_value)) < 1) := by
  have hsafe : safeFilter good_mag_limit cat = true ↔
      meanQ (cat.map (fun d => d.base_PsfFlux_mag)) ≤ good_mag_limit ∧
      maxQ (cat.map (fun d => d.base_ClassificationExtendedness_value)) < 1 := by
    unfold safeFilter safeMaxExtended
    simp
  refine ⟨hsafe, ?_⟩
  have h2 : (analyzeData sqrt positionRms allMatches good_mag_limit).2 =
      (allMatches.where' goodFilter).where' (safeFilter good_mag_limit) := rfl
  rw [h2]
  unfold GroupView.where'
  rw [List.mem_filter, hsafe]

/-- C4: the safe/bright filter is idempotent — filtering the output of the
safe filter with the safe filter again changes nothing, because every group
in the output already satisfies the predicate. -/
theorem c4_safeFilter_idempotent (good_mag_limit : ℚ) (gv : GroupView) :
    (gv.where' (safeFilter good_mag_limit)).where' (safeFilter good_mag_limit) =
      gv.where' (safeFilter good_mag_limit) ∧
    ∀ cat ∈ gv.where' (safeFilter good_mag_limit),
      safeFilter good_mag_limit cat = true := by
  constructor
  · unfold GroupView.where'
    rw [List.filter_filter]
    simp
  · intro cat hcat
    exact List.of_mem_filter hcat

/-- C5: both passes are pure selections: the good matches are a sublist of
the input groups, the safe matches a sublist of the good matches (hence of
the input), and every surviving group is an element — members and member
fields untouched — of the input GroupView. -/
theorem c5_filters_pure (sqrt : ℚ → ℚ) (positionRms : Group → ℚ)
    (allMatches : GroupView) (good_mag_limit : ℚ) :
    (allMatches.where' goodFilter).Sublist allMatches ∧
    ((analyzeData sqrt positionRms allMatches good_mag_limit).2).Sublist
      (allMatches.where' goodFilter) ∧
    ((analyzeData sqrt positionRms allMatches good_mag_limit).2).Sublist
      allMatches ∧
    (∀ cat ∈ allMatches.where' goodFilter, cat ∈ allMatches) ∧
    (∀ cat ∈ (analyzeData sqrt positionRms allMatches good_mag_limit).2,
      cat ∈ allMatches) := by
  have h2 : (analyzeData sqrt positionRms allMatches good_mag_limit).2 =
      (allMatches.where' goodFilter).where' (safeFilter good_mag_limit) := rfl
  have hgood : (allMatches.where' goodFilter).Sublist allMatches :=
    List.filter_sublist allMatches
  have hsafe : ((analyzeData sqrt positionRms allMatches good_mag_limit).2).Sublist
      (allMatches.where' goodFilter) := by
    rw [h2]; exact List.filter_sublist _
  have hall : ((analyzeData sqrt positionRms allMatches good_mag_limit).2).Sublist
      allMatches := hsafe.trans hgood
  exact ⟨hgood, hsafe, hall, fun cat hcat => hgood.mem hcat,
    fun cat hcat => hall.mem hcat⟩

/-- C3: per group passing the good-quality filter, `analyzeData` reports the
mean of member PSF magnitudes (`mag`), their standard deviation (`magrms`),
the median of member PSF magnitude errors (`magerr`), and the positional
RMS of member positions (`dist`), and the `match` count equals the length of
the `dist` array (which is the number of surviving good groups). -/
theorem c3_analyzeData_summary (sqrt : ℚ → ℚ) (positionRms : Group → ℚ)
    (allMatches : GroupView) (good_mag_limit : ℚ) :
    (analyzeData sqrt positionRms allMatches good_mag_limit).1.mag =
      (allMatches.where' goodFilter).map (fun cat =>
        (cat.map (fun d => d.base_PsfFlux_mag)).sum /
          ((cat.map (fun d => d.base_PsfFlux_mag)).length : ℚ)) ∧
    (analyzeData sqrt positionRms allMatches good_mag_limit).1.magrms =
      (allMatches.where' goodFilter).map (fun cat =>
        sqrt (meanQ ((cat.map (fun d => d.base_PsfFlux_mag)).map
          (fun x => (x - meanQ (cat.map (fun d => d.base_PsfFlux_mag))) ^ 2)))) ∧
    (analyzeData sqrt positionRms allMatches good_mag_limit).1.magerr =
      (allMatches.where' goodFilter).map (fun cat =>
        medianQ (cat.map (fun d => d.base_PsfFlux_magerr))) ∧
    (analyzeData sqrt positionRms allMatches good_mag_limit).1.dist =
      (allMatches.where' goodFilter).map positionRms ∧
    (analyzeData sqrt positionRms allMatches good_mag_limit).1.matchCount =
      (analyzeData sqrt positionRms allMatches good_mag_limit).1.dist.length ∧
    (analyzeData sqrt positionRms allMatches good_mag_limit).1.matchCount =
      (allMatches.where' goodFilter).length := by
  refine ⟨rfl, rfl, rfl, rfl, ?_, ?_⟩
  · rfl
  · simp [analyzeData, GroupView.aggregate]

/-- C6: when `run` reaches the downstream calls, the magnitude-scatter and
magnitude-error aggregates of `analyzeData` are converted to millimagnitudes
by multiplying by exactly 1000 (`mmagrms` in both threshold checks and both
plots, `mmagerr` in both plots), while the mean-magnitude array reaches all
four calls unconverted. -/
theorem c6_run_millimag {ε Md DataId : Type} (E : Externals ε Md DataId)
    (sqrt : ℚ → ℚ) (positionRms : Group → ℚ) (butler : Butler ε Md DataId)
    (visitDataIds : List DataId) (good_mag_limit medianAstromscatterRef
      medianPhotoscatterRef : ℚ) (matchRef : ℕ) (allMatches : GroupView)
    (hL : loadAndMatchData E butler visitDataIds
      loadAndMatchData_default_matchRadius = .ok allMatches) :
    ∃ r, run E sqrt positionRms butler visitDataIds good_mag_limit
        medianAstromscatterRef medianPhotoscatterRef matchRef = .ok r ∧
      r.checkAstrometryCall.mmagrms =
        ((analyzeData sqrt positionRms allMatches good_mag_limit).1.magrms).map
          (fun x => 1000 * x) ∧
      r.checkPhotometryCall.mmagrms =
        ((analyzeData sqrt positionRms allMatches good_mag_limit).1.magrms).map
          (fun x => 1000 * x) ∧
      r.plotAstrometryCall.mmagrms =
        ((analyzeData sqrt positionRms allMatches good_mag_limit).1.magrms).map
          (fun x => 1000 * x) ∧
      r.plotPhotometryCall.mmagrms =
        ((analyzeData sqrt positionRms allMatches good_mag_limit).1.magrms).map
          (fun x => 1000 * x) ∧
      r.plotAstrometryCall.mmagerr =
        ((analyzeData sqrt positionRms allMatches good_mag_limit).1.magerr).map
          (fun x => 1000 * x) ∧
      r.plotPhotometryCall.mmagerr =
        ((analyzeData sqrt positionRms allMatches good_mag_limit).1.magerr).map
          (fun x => 1000 * x) ∧
      r.checkAstrometryCall.mag =
        (analyzeData sqrt positionRms allMatches good_mag_limit).1.mag ∧
      r.checkPhotometryCall.mag =
        (analyzeData sqrt positionRms allMatches good_mag_limit).1.mag ∧
      r.plotAstrometryCall.mag =
        (analyzeData sqrt positionRms allMatches good_mag_limit).1.mag ∧
      r.plotPhotometryCall.mag =
        (analyzeData sqrt positionRms allMatches good_mag_limit).1.mag := by
  unfold run
  rw [hL]
  exact ⟨_, rfl, rfl, rfl, rfl, rfl, rfl, rfl, rfl, rfl, rfl, rfl⟩

/-- C6 witness: with trivial external collaborators and an all-succeeding
butler over one visit, `run` succeeds and the conversion equations hold. -/
theorem c6_run_millimag_witness :
    ∃ r, run externalsTriv sqrtTriv posRmsTriv butlerOk [()] 21 25 25 500 =
        .ok r ∧
      r.checkAstrometryCall.mmagrms =
        ((analyzeData sqrtTriv posRmsTriv [] 21).1.magrms).map
          (fun x => 1000 * x) ∧
      r.checkPhotometryCall.mmagrms =
        ((analyzeData sqrtTriv posRmsTriv [] 21).1.magrms).map
          (fun x => 1000 * x) ∧
      r.plotAstrometryCall.mmagrms =
        ((analyzeData sqrtTriv posRmsTriv [] 21).1.magrms).map
          (fun x => 1000 * x) ∧
      r.plotPhotometryCall.mmagrms =
        ((analyzeData sqrtTriv posRmsTriv [] 21).1.magrms).map
          (fun x => 1000 * x) ∧
      r.plotAstrometryCall.mmagerr =
        ((analyzeData sqrtTriv posRmsTriv [] 21).1.magerr).map
          (fun x => 1000 * x) ∧
      r.plotPhotometryCall.mmagerr =
        ((analyzeData sqrtTriv posRmsTriv [] 21).1.magerr).map
          (fun x => 1000 * x) ∧
      r.checkAstrometryCall.mag = (analyzeData sqrtTriv posRmsTriv [] 21).1.mag ∧
      r.checkPhotometryCall.mag = (analyzeData sqrtTriv posRmsTriv [] 21).1.mag ∧
      r.plotAstrometryCall.mag = (analyzeData sqrtTriv posRmsTriv [] 21).1.mag ∧
      r.plotPhotometryCall.mag =
        (analyzeData sqrtTriv posRmsTriv [] 21).1.mag :=
  c6_run_millimag externalsTriv sqrtTriv posRmsTriv butlerOk [()] 21 25 25 500
    [] rfl

/-- C7: the default match radius of `loadAndMatchData` is 1 arcsecond,
`analyzeData`'s documented `good_mag_limit` default is 19.5 while `run`'s is
21.0, and `run` hands its own (caller-supplied) `good_mag_limit` to
`analyzeData` and to both threshold checks. -/
theorem c7_defaults_and_passthrough {ε Md DataId : Type}
    (E : Externals ε Md DataId) (sqrt : ℚ → ℚ) (positionRms : Group → ℚ)
    (butler : Butler ε Md DataId) (visitDataIds : List DataId)
    (good_mag_limit medianAstromscatterRef medianPhotoscatterRef : ℚ)
    (matchRef : ℕ) (allMatches : GroupView)
    (hL : loadAndMatchData E butler visitDataIds
      loadAndMatchData_default_matchRadius = .ok allMatches) :
    loadAndMatchData_default_matchRadius = 1 ∧
    analyzeData_default_good_mag_limit = 19.5 ∧
    run_default_good_mag_limit = 21 ∧
    runWithDefaults E sqrt positionRms butler visitDataIds =
      run E sqrt positionRms butler visitDataIds 21 25 25 500 ∧
    ∃ r, run E sqrt positionRms butler visitDataIds good_mag_limit
        medianAstromscatterRef medianPhotoscatterRef matchRef = .ok r ∧
      r.checkAstrometryCall.good_mag_limit = good_mag_limit ∧
      r.checkPhotometryCall.good_mag_limit = good_mag_limit ∧
      r.checkAstrometryCall.mag =
        (analyzeData sqrt positionRms allMatches good_mag_limit).1.mag ∧
      r.safeMatches =
        (analyzeData sqrt positionRms allMatches good_mag_limit).2 := by
  refine ⟨rfl, rfl, rfl, rfl, ?_⟩
  unfold run
  rw [hL]
  exact ⟨_, rfl, rfl, rfl, rfl, rfl⟩

/-- C7 witness: the defaults and the pass-through at a concrete succeeding
pipeline with `good_mag_limit = 5`. -/
theorem c7_defaults_and_passthrough_witness :
    loadAndMatchData_default_matchRadius = 1 ∧
    analyzeData_default_good_mag_limit = 19.5 ∧
    run_default_good_mag_limit = 21 ∧
    runWithDefaults externalsTriv sqrtTriv posRmsTriv butlerOk [()] =
      run externalsTriv sqrtTriv posRmsTriv butlerOk [()] 21 25 25 500 ∧
    ∃ r, run externalsTriv sqrtTriv posRmsTriv butlerOk [()] 5 25 25 500 =
        .ok r ∧
      r.checkAstrometryCall.good_mag_limit = 5 ∧
      r.checkPhotometryCall.good_mag_limit = 5 ∧
      r.checkAstrometryCall.mag = (analyzeData sqrtTriv posRmsTriv [] 5).1.mag ∧
      r.safeMatches = (analyzeData sqrtTriv posRmsTriv [] 5).2 :=
  c7_defaults_and_passthrough externalsTriv sqrtTriv posRmsTriv butlerOk [()]
    5 25 25 500 [] rfl

/-- The visit loop stops at the first raised exception: if every earlier
visit loads and visit `v` raises `e`, the whole loop raises `e`, for every
tail of later visits. -/
theorem exceptMapList_append_error {α β ε : Type} (f : α → Except ε β)
    (pre : List α) (v : α) (post : List α) (e : ε)
    (hpre : ∀ u ∈ pre, ∃ y, f u = .ok y) (hv : f v = .error e) :
    exceptMapList f (pre ++ v :: post) = .error e := by
  induction pre with
  | nil => simp [exceptMapList, hv]
  | cons a l ih =>
    obtain ⟨y, hy⟩ := hpre a (by simp)
    have ih' := ih (fun u hu => hpre u (List.mem_cons_of_mem a hu))
    simp [exceptMapList, hy, ih']

/-- C8: `loadAndMatchData` has no error recovery.  If the schema fetch, or
the calibration-metadata or catalog fetch of some visit, raises `e` (with
every earlier visit loading fine), the call returns exactly
`butlerError e` — the error unmodified, no retry, no partial catalog — and
the result is the same for every list of subsequent visits, which are
therefore never processed. -/
theorem c8_load_error_propagation {ε Md DataId : Type}
    (E : Externals ε Md DataId) (butler : Butler ε Md DataId)
    (pre : List DataId) (v : DataId) (e : ε) (matchRadius : ℚ) (sch : Schema)
    (hsch : butler.getSrcSchema = .ok sch)
    (hpre : ∀ u ∈ pre, ∃ y, loadVisit E butler u = .ok y)
    (hv : butler.getCalexpMd v = .error e ∨
      ∃ md, butler.getCalexpMd v = .ok md ∧ butler.getSrc v = .error e) :
    ∀ post : List DataId,
      loadAndMatchData E butler (pre ++ v :: post) matchRadius =
        .error (.butlerError e) := by
  have hvisit : loadVisit E butler v = .error (.butlerError e) := by
    rcases hv with hmd | ⟨md, hmd, hsrc⟩
    · unfold loadVisit
      rw [hmd]
      rfl
    · unfold loadVisit
      rw [hmd, hsrc]
      rfl
  intro post
  have hloop := exceptMapList_append_error (loadVisit E butler) pre v post
    (.butlerError e) hpre hvisit
  cases pre with
  | nil =>
    unfold loadAndMatchData
    rw [hsch]
    simp only [List.nil_append] at hloop ⊢
    rw [hloop]
    rfl
  | cons a l =>
    unfold loadAndMatchData
    rw [hsch]
    simp only [List.cons_append] at hloop ⊢
    rw [hloop]
    rfl

/-- C8 witness: with a butler whose `src` fetch for visit 1 raises error 7,
running over visits `[0, 1, 2]` propagates exactly that error. -/
theorem c8_load_error_propagation_witness :
    loadAndMatchData externalsNat butlerFailSrc ([0] ++ 1 :: [2]) 1 =
      .error (.butlerError 7) :=
  c8_load_error_propagation externalsNat butlerFailSrc [0] 1 7 1 ⟨0⟩ rfl
    (by
      intro u hu
      simp only [List.mem_singleton] at hu
      subst hu
      exact ⟨([], 0), rfl⟩)
    (Or.inr ⟨(), rfl, rfl⟩)
    [2]

/-- C10: `loadAndMatchData` reads `visitDataIds[0]` before issuing any butler
fetch, so on the empty list it fails with the index error for every butler —
the data store is never consulted — and `run` inherits the same failure;
non-empty `visitDataIds` is a precondition of both entry points. -/
theorem c10_empty_visitDataIds {ε Md DataId : Type}
    (E : Externals ε Md DataId) (butler : Butler ε Md DataId)
    (sqrt : ℚ → ℚ) (positionRms : Group → ℚ)
    (matchRadius good_mag_limit medianAstromscatterRef
      medianPhotoscatterRef : ℚ) (matchRef : ℕ) :
    loadAndMatchData E butler ([] : List DataId) matchRadius =
      .error .indexError ∧
    run E sqrt positionRms butler ([] : List DataId) good_mag_limit
      medianAstromscatterRef medianPhotoscatterRef matchRef =
      .error .indexError := by
  exact ⟨rfl, rfl⟩

mutual
/-- A config tree holding no reachable `PpdbConfig` makes the walker return
None. -/
theorem getPpdb_eq_none (c : Cfg) (h : cfgHasPpdb c = false) :
    getPpdb c = none :=
  match c with
  | .ppdbCfg _ => by simp [cfgHasPpdb] at h
  | .plain fields => by
    simp only [cfgHasPpdb] at h
    simp only [getPpdb]
    exact getPpdbFields_eq_none fields h

/-- Lemma `getPpdb_eq_none` over the field loop. -/
theorem getPpdbFields_eq_none (l : List CfgField) (h : fieldsHavePpdb l = false) :
    getPpdbFields l = none :=
  match l with
  | [] => by simp [getPpdbFields]
  | f :: rest => by
    simp only [fieldsHavePpdb, Bool.or_eq_false_iff] at h
    simp only [getPpdbFields, getPpdbField_eq_none f h.1]
    exact getPpdbFields_eq_none rest h.2

/-- Lemma `getPpdb_eq_none` over one field dispatch. -/
theorem getPpdbField_eq_none (f : CfgField) (h : fieldHasPpdb f = false) :
    getPpdbField f = none :=
  match f with
  | .configurableNone => by simp [getPpdbField]
  | .configurablePpdbClass _ => by simp [fieldHasPpdb] at h
  | .configurableOtherClass value => by
    simp only [fieldHasPpdb] at h
    simp only [getPpdbField]
    exact getPpdb_eq_none value h
  | .choiceSingle none => by simp [getPpdbField]
  | .choiceSingle (some active) => by
    simp only [fieldHasPpdb] at h
    simp only [getPpdbField]
    exact getPpdb_eq_none active h
  | .choiceMulti active => by
    simp only [fieldHasPpdb] at h
    simp only [getPpdbField]
    exact getPpdbIterable_eq_none active h
  | .dictField vals => by
    simp only [fieldHasPpdb] at h
    simp only [getPpdbField]
    exact getPpdbIterable_eq_none vals h
  | .nestedConfig c => by
    simp only [fieldHasPpdb] at h
    simp only [getPpdbField]
    exact getPpdb_eq_none c h
  | .scalar => by simp [getPpdbField]

/-- Lemma `getPpdb_eq_none` over a config iterable. -/
theorem getPpdbIterable_eq_none (l : List Cfg) (h : cfgListHasPpdb l = false) :
    getPpdbIterable l = none :=
  match l with
  | [] => by simp [getPpdbIterable]
  | c :: rest => by
    simp only [cfgListHasPpdb, Bool.or_eq_false_iff] at h
    simp only [getPpdbIterable, getPpdb_eq_none c h.1]
    exact getPpdbIterable_eq_none rest h.2
end

/-- C9: in `PpdbMetricTask.adaptArgsAndRun`, when the loader finds no
database — as for a None config, or for any config tree containing no
`PpdbConfig` — `makeMeasurement` and `addStandardMetadata` are never invoked
and the returned Struct carries `measurement = None`; and whenever
`addStandardMetadata` is invoked, it is on the non-None measurement that
`makeMeasurement` returned. -/
theorem c9_adaptArgsAndRun_no_db {Meas DataId : Type} :
    (∀ (mm : Ppdb → DataId → Option Meas) (input : DbInfoInput)
        (dataId : DataId) (dbInfo : Option Cfg),
      unwrapDbInfo input = .ok dbInfo → ConfigPpdbLoader_run dbInfo = none →
        adaptArgsAndRun mm input dataId = .ok (none, [])) ∧
    ConfigPpdbLoader_run none = none ∧
    (∀ c : Cfg, cfgHasPpdb c = false →
      ConfigPpdbLoader_run (some c) = none) ∧
    (∀ (mm : Ppdb → DataId → Option Meas) (input : DbInfoInput)
        (dataId : DataId) (res : Option Meas × List (AdaptEvent Meas DataId)),
      adaptArgsAndRun mm input dataId = .ok res →
        ∀ (m : Meas) (d : DataId),
          (AdaptEvent.addStandardMetadataCall m d) ∈ res.2 →
            res.1 = some m ∧ ∃ dbInfo db, unwrapDbInfo input = .ok dbInfo ∧
              ConfigPpdbLoader_run dbInfo = some db ∧
              mm db dataId = some m ∧
              (AdaptEvent.makeMeasurementCall db dataId) ∈ res.2) := by
  refine ⟨?_, rfl, ?_, ?_⟩
  · intro mm input dataId dbInfo hunwrap hdb
    simp [adaptArgsAndRun, hunwrap, hdb]
  · intro c hc
    unfold ConfigPpdbLoader_run ConfigPpdbLoader_getPpdb
    exact getPpdb_eq_none c hc
  · intro mm input dataId res hrun m d hmem
    cases hunwrap : unwrapDbInfo input with
    | error e => simp [adaptArgsAndRun, hunwrap] at hrun
    | ok dbInfo =>
      cases hdb : ConfigPpdbLoader_run dbInfo with
      | none =>
        simp only [adaptArgsAndRun, hunwrap, hdb, Except.ok.injEq] at hrun
        subst hrun
        simp at hmem
      | some db =>
        cases hmm : mm db dataId with
        | none =>
          simp only [adaptArgsAndRun, hunwrap, hdb, hmm, Except.ok.injEq]
            at hrun
          subst hrun
          simp at hmem
        | some m0 =>
          simp only [adaptArgsAndRun, hunwrap, hdb, hmm, Except.ok.injEq]
            at hrun
          subst hrun
          simp only [List.mem_append, List.mem_singleton, List.mem_cons,
            List.not_mem_nil, or_false] at hmem
          rcases hmem with hmem | hmem
          · exact absurd hmem (by simp)
          · have hm : m = m0 ∧ d = dataId := by
              cases hmem
              exact ⟨rfl, rfl⟩
            rcases hm with ⟨hm1, hm2⟩
            subst hm1
            subst hm2
            exact ⟨rfl, dbInfo, db, rfl, hdb, hmm, by simp⟩

/-- C9 witness: with a None science-task config the loader finds no database
and `adaptArgsAndRun` returns `measurement = None` having invoked neither
hook. -/
theorem c9_adaptArgsAndRun_no_db_witness :
    adaptArgsAndRun mmTriv (DbInfoInput.scalar none) (0 : ℕ) = .ok (none, []) :=
  (c9_adaptArgsAndRun_no_db).1 mmTriv (DbInfoInput.scalar none) 0 none rfl rfl

end Verify
